import Mathlib

/-
Verification of the LiveUpdate core (src/update.cpp) against its
natural-language specification.

The blob supplied to LiveUpdate::begin is modelled as a byte function
together with a declared length: the C++ code reads the blob through a raw
pointer with no memory-protection net, so a read beyond `len` is still a
defined value in the model (it is whatever lies in memory after the blob);
a separate instrumentation (`locateReads`) records which byte offsets the
ELF-locating code dereferences, so that bounds-safety claims can be stated.

Machine integers are modelled as Nat/Int with explicit reductions modulo
2^32 / 2^64 exactly where the C++ types force a wrap or truncation
(`size_t expected_total = e_shnum * e_shentsize + e_shoff`,
`(uint32_t) expected_total`, `int bin_len = p_filesz`).

The storage_header type (storage.hpp) is not part of the given source;
its definitions below are modelled from the spec and marked as such.
-/

namespace Liu

/-- 2^32, the modulus of the 32-bit unsigned arithmetic in update.cpp. -/
def pow32 : Nat := 4294967296

/-- 2^64, the modulus of 64-bit pointers and size_t in update.cpp. -/
def pow64 : Nat := 18446744073709551616

/-- Conversion of an unsigned value to C `int` (two's-complement 32-bit),
as performed by `int bin_len = phdr->p_filesz;` in update.cpp. -/
def asInt32 (v : Nat) : Int :=
  if v % pow32 < 2147483648 then ((v % pow32 : Nat) : Int)
  else ((v % pow32 : Nat) : Int) - (pow32 : Int)

/-- Conversion of a C `int` to `uint64` (sign extension), as performed when
the `int` product `e_shnum * e_shentsize` is added to the 64-bit `e_shoff`. -/
def u64ofInt (i : Int) : Nat := (i % (pow64 : Int)).toNat

/-- The caller-supplied byte blob of LiveUpdate::begin: the byte at every
memory offset from the blob start (defined even beyond `len`, since the
C++ code can read there through the raw pointer), plus the actual length
`blob.size()`. -/
structure Blob where
  data : Nat → Nat
  len : Nat

/-- The byte read at offset `i` from the blob start. -/
def byte (b : Blob) (i : Nat) : Nat := b.data i % 256

/-- Little-endian multi-byte read at offset `off`, width `n` bytes: how the
x86 code reads the `Elf32_Ehdr`/`Elf64_Ehdr`/`Phdr` struct fields. -/
def readLE (b : Blob) (off : Nat) : Nat → Nat
  | 0 => 0
  | n + 1 => byte b off + 256 * readLE b (off + 1) n

/-- SECT_SIZE in update.cpp: one storage sector. -/
def SECT_SIZE : Nat := 512

/-- ELF_MINIMUM in update.cpp: minimum plausible ELF size. -/
def ELF_MINIMUM : Nat := 164

/-- validate_header in update.cpp: the 4-byte ELF magic check
`e_ident[0..3] == 0x7F 'E' 'L' 'F'` at header offset `s`. -/
def validate_header (b : Blob) (s : Nat) : Bool :=
  byte b s == 0x7F && byte b (s + 1) == 0x45 &&
  byte b (s + 2) == 0x4C && byte b (s + 3) == 0x46

/-- The header search of LiveUpdate::begin: try offset 0, then retry at
SECT_SIZE (512); `none` means no ELF header was found. -/
def headerSearch (b : Blob) : Option Nat :=
  if validate_header b 0 then some 0
  else if validate_header b SECT_SIZE then some SECT_SIZE
  else none

/-- The values LiveUpdate::begin extracts from the located ELF header:
entry point (`start_offset`), `expected_total`, the first program header's
file offset (the offset of `bin_data` from the header start), `bin_len`
(a C `int`), and `phys_base` (as an address value). -/
structure ImageDesc where
  entry : Nat
  expected : Nat
  binOff : Nat
  binLen : Int
  physBase : Nat
deriving DecidableEq

/-- The extraction branch of LiveUpdate::begin at header offset `s`:
branch on `e_ident[EI_CLASS] == ELFCLASS32` and read the class-appropriate
ELF fields.  For the 32-bit class, `expected_total` is the C expression
`e_shnum * e_shentsize + e_shoff` evaluated in `unsigned` arithmetic
(mod 2^32); for the 64-bit class the `int` product is sign-extended and
added to the 64-bit `e_shoff` (mod 2^64).  The program header is read at
`binary + e_phoff` with no bounds check, exactly as in the source. -/
def locateDesc (b : Blob) (s : Nat) : ImageDesc :=
  if byte b (s + 4) == 1 then
    let shnum := readLE b (s + 48) 2
    let shentsize := readLE b (s + 46) 2
    let shoff := readLE b (s + 32) 4
    let phoff := readLE b (s + 28) 4
    { entry := readLE b (s + 24) 4
      expected := (shnum * shentsize + shoff) % pow32
      binOff := readLE b (s + (phoff + 4)) 4
      binLen := asInt32 (readLE b (s + (phoff + 16)) 4)
      physBase := readLE b (s + (phoff + 12)) 4 }
  else
    let shnum := readLE b (s + 60) 2
    let shentsize := readLE b (s + 58) 2
    let shoff := readLE b (s + 40) 8
    let phoff := readLE b (s + 32) 8
    { entry := readLE b (s + 24) 8
      expected := (u64ofInt (asInt32 (shnum * shentsize)) + shoff) % pow64
      binOff := readLE b (s + (phoff + 8)) 8
      binLen := asInt32 (readLE b (s + (phoff + 32)) 8)
      physBase := readLE b (s + (phoff + 24)) 8 }

/-- The expected total size exactly as the spec words it: `section
header offset + section count * section header entry size`, as unbounded
integers (no machine wrap-around).  Used only to compare the spec's claim
with the source's `expected_total`. -/
def spec_expected_total (b : Blob) (s : Nat) : Nat :=
  if byte b (s + 4) == 1 then
    readLE b (s + 32) 4 + readLE b (s + 48) 2 * readLE b (s + 46) 2
  else
    readLE b (s + 40) 8 + readLE b (s + 60) 2 * readLE b (s + 58) 2

/-- Offsets `off, off+1, ..., off+n-1`, the footprint of one multi-byte read. -/
def rangeReads (off n : Nat) : List Nat := (List.range n).map (fun k => off + k)

/-- The byte offsets dereferenced by one `validate_header` call at header
offset `s` (the `&&` chain short-circuits, so later bytes are only read
when the earlier ones matched). -/
def magicReads (b : Blob) (s : Nat) : List Nat :=
  [s] ++ (if byte b s == 0x7F then
    [s + 1] ++ (if byte b (s + 1) == 0x45 then
      [s + 2] ++ (if byte b (s + 2) == 0x4C then [s + 3] else []) else []) else [])

/-- The byte offsets dereferenced by the extraction branch at header
offset `s`: the EI_CLASS byte, the class-appropriate Ehdr fields, and the
program-header fields at `e_phoff` (dereferenced without bounds check). -/
def descReads (b : Blob) (s : Nat) : List Nat :=
  [s + 4] ++
  (if byte b (s + 4) == 1 then
    rangeReads (s + 48) 2 ++ rangeReads (s + 46) 2 ++ rangeReads (s + 32) 4 ++
    rangeReads (s + 24) 4 ++ rangeReads (s + 28) 4 ++
    rangeReads (s + (readLE b (s + 28) 4 + 4)) 4 ++
    rangeReads (s + (readLE b (s + 28) 4 + 16)) 4 ++
    rangeReads (s + (readLE b (s + 28) 4 + 12)) 4
  else
    rangeReads (s + 60) 2 ++ rangeReads (s + 58) 2 ++ rangeReads (s + 40) 8 ++
    rangeReads (s + 24) 8 ++ rangeReads (s + 32) 8 ++
    rangeReads (s + (readLE b (s + 32) 8 + 8)) 8 ++
    rangeReads (s + (readLE b (s + 32) 8 + 32)) 8 ++
    rangeReads (s + (readLE b (s + 32) 8 + 24)) 8)

/-- Every byte offset into the blob that the ELF-locating part of
LiveUpdate::begin dereferences, in its control flow order. -/
def locateReads (b : Blob) : List Nat :=
  magicReads b 0 ++
  (if validate_header b 0 then descReads b 0
   else magicReads b SECT_SIZE ++
     (if validate_header b SECT_SIZE then descReads b SECT_SIZE else []))

/-- The bytes of the loadable segment the descriptor points at: `binLen`
bytes starting at `binary + p_offset` (the `bin_data` pointer). -/
def segBytes (b : Blob) (s : Nat) : List Nat :=
  (List.range (locateDesc b s).binLen.toNat).map
    (fun i => byte b (s + ((locateDesc b s).binOff + i)))

/-- A blob with `p` (length 512 in the claims) laid down in front of `b`. -/
def prependBlob (p : List Nat) (b : Blob) : Blob :=
  { data := fun i => if i < p.length then p.getD i 0 else b.data (i - p.length)
    len := p.length + b.len }

/-- Modelled from the spec: one typed entry of the storage log
(storage.hpp is not part of the given source).  Only the sizes matter to
the claims, so the payload is abstracted to its byte count. -/
structure Entry where
  tag : Nat
  id : Nat
  payloadSize : Nat
deriving DecidableEq

/-- Modelled from the spec: the encoded size of one entry (type tag, id,
length field, payload; exact widths are implementation-defined but
consistent). -/
def entrySize (e : Entry) : Nat := 12 + e.payloadSize

/-- Modelled from the spec: the storage log's header format marker
(exact value implementation-defined). -/
def LIVEUPD_MAGIC : Nat := 1279870037

/-- Modelled from the spec: the finalization trailer marker
(exact value implementation-defined). -/
def TRAILER_MAGIC : Nat := 1952541298

/-- Modelled from the spec: encoded size of the log header (marker +
running byte count). -/
def HEADER_BYTES : Nat := 8

/-- Modelled from the spec: encoded size of the finalization trailer. -/
def TRAILER_BYTES : Nat := 4

/-- Modelled from the spec: the storage_header of storage.hpp — a format
marker, a running byte count, the appended entries, and the finalization
trailer, laid out in place at the storage region.  An arbitrary value of
this type stands for arbitrary previous contents of the region. -/
structure storage_header where
  magic : Nat
  total : Nat
  entries : List Entry
  trailer : Nat
deriving DecidableEq

/-- Modelled from the spec: placement-new construction of a storage_header
(`new (location) storage_header()`): marker written, byte count zeroed,
trailer not yet written — unconditionally, whatever was there before. -/
def storage_header.create : storage_header :=
  { magic := LIVEUPD_MAGIC, total := 0, entries := [], trailer := 0 }

/-- Modelled from the spec: appending one entry advances the running byte
count by the entry's encoded size. -/
def storage_header.add_entry (st : storage_header) (e : Entry) : storage_header :=
  { st with total := st.total + entrySize e, entries := st.entries ++ [e] }

/-- Modelled from the spec: `finalize()` writes the integrity trailer;
afterwards the log is immutable. -/
def storage_header.finalize (st : storage_header) : storage_header :=
  { st with trailer := TRAILER_MAGIC }

/-- Modelled from the spec: `validate()` re-checks the format marker and
the integrity trailer. -/
def storage_header.validate (st : storage_header) : Bool :=
  st.magic == LIVEUPD_MAGIC && st.trailer == TRAILER_MAGIC

/-- Modelled from the spec: `total_bytes()` — the finalized log's total
size in bytes (header + entries + trailer). -/
def storage_header.total_bytes (st : storage_header) : Nat :=
  HEADER_BYTES + st.total + TRAILER_BYTES

/-- The error raised by LiveUpdate::stored_data_length when the sanity
check fails. -/
inductive LiuErr where
  | integrityCheckFailed
deriving DecidableEq

/-- The global sanity-check toggle of update.cpp, with its initializer. -/
def LIVEUPDATE_PERFORM_SANITY_CHECKS : Bool := true

/-- LiveUpdate::stored_data_length: if the (global, here explicit) toggle
is set and `validate()` fails, throw; otherwise return `total_bytes()`.
The region contents are passed as the storage_header they hold. -/
def stored_data_length (checks : Bool) (st : storage_header) : Except LiuErr Nat :=
  if checks && !st.validate then .error .integrityCheckFailed
  else .ok st.total_bytes

/-- The state-dump callback abstracted by its effect: `none` when the
caller passes no callback, otherwise the entries it appends (the Storage
wrapper exposes only the append operations). -/
def runCallback (cb : Option (List Entry)) (st : storage_header) : storage_header :=
  match cb with
  | none => st
  | some es => es.foldl storage_header.add_entry st

/-- update_store_data in update.cpp: placement-new a fresh storage_header
over the region (ignoring its previous contents `r0`), run the callback if
provided, finalize, and return `stored_data_length` of the result together
with the new region contents. -/
def update_store_data (checks : Bool) (r0 : storage_header)
    (cb : Option (List Entry)) : Except LiuErr (Nat × storage_header) :=
  let st := storage_header.finalize (runCallback cb storage_header.create)
  match stored_data_length checks st with
  | .error e => .error e
  | .ok n => .ok (n, st)

/-- The region contents update_store_data leaves behind: a freshly
created, callback-filled, finalized log. -/
def logOf (cb : Option (List Entry)) : storage_header :=
  storage_header.finalize (runCallback cb storage_header.create)

/-- LiveUpdate::store: update_store_data without an image swap. -/
def store (checks : Bool) (r0 : storage_header)
    (cb : Option (List Entry)) : Except LiuErr (Nat × storage_header) :=
  update_store_data checks r0 cb

/-- The five distinct InvalidRegion failure reasons of the region checks
at the top of LiveUpdate::begin, in source order. -/
inductive RegionError where
  | nullArea
  | inKernel
  | inHeap
  | beyondRam
  | lowMargin
deriving DecidableEq

/-- The process-wide bounds and ambient state read by LiveUpdate::begin:
kernel image bounds (&_ELF_START_, &_end), heap bounds, top of physical
memory (OS::heap_max()), the address the blob lives at (for the
`bin_data == nullptr` test), the platform switch (PLATFORM_x86_solo5),
and the value of the global sanity-check toggle at the time of the call. -/
structure Env where
  kernelStart : Nat
  kernelEnd : Nat
  heapBegin : Nat
  heapEnd : Nat
  heapMax : Nat
  blobAddr : Nat
  solo5 : Bool
  checks : Bool

/-- The region validation block of LiveUpdate::begin (lines 73-87): five
checks in source order, each with its own error; pure, no writes. -/
def validate_region (env : Env) (addr : Nat) : Option RegionError :=
  if addr < 0x200 then some RegionError.nullArea
  else if env.kernelStart ≤ addr ∧ addr < env.kernelEnd then some RegionError.inKernel
  else if env.heapBegin ≤ addr ∧ addr < env.heapEnd then some RegionError.inHeap
  else if env.heapMax ≤ addr then some RegionError.beyondRam
  else if env.heapMax - 0x10000 ≤ addr then some RegionError.lowMargin
  else none

/-- The observable side-effect steps of LiveUpdate::begin, in the order
they appear in its trace. -/
inductive Ev where
  | mask
  | unmask
  | regionOk
  | headerFound
  | sizeOk
  | storeHeader
  | callbackRun
  | logFinalized
  | devFlush
  | snapshot
  | segmentOk
  | handoff
deriving DecidableEq

/-- How a run of LiveUpdate::begin ends: one of its throw sites, or the
terminal handoff (which does not return). -/
inductive Outcome where
  | invalidRegion : RegionError → Outcome
  | imageNotFound
  | imageSizeMismatch (expectedReported actualReported : Nat)
  | malformedSegment
  | integrityCheckFailed
  | handedOff (hdrOff : Nat) (d : ImageDesc)
deriving DecidableEq

/-- Whether an outcome is the ImageSizeMismatch error, regardless of the
reported counts. -/
def isSizeMismatch : Outcome → Bool
  | .imageSizeMismatch _ _ => true
  | _ => false

/-- A run of LiveUpdate::begin: its outcome, the side-effect steps it
performed in order, and the storage region contents it leaves behind. -/
structure BeginResult where
  outcome : Outcome
  trace : List Ev
  region : storage_header
deriving DecidableEq

/-- The side-effect steps performed once begin reaches update_store_data:
header write, optional callback, finalize, device flush, and (off the
solo5 platform) the soft-reset snapshot capture. -/
def storeTrace (cbSome : Bool) (solo5 : Bool) : List Ev :=
  [Ev.mask, Ev.regionOk, Ev.headerFound, Ev.sizeOk, Ev.storeHeader] ++
  (if cbSome then [Ev.callbackRun] else []) ++
  [Ev.logFinalized, Ev.devFlush] ++
  (if solo5 then [] else [Ev.snapshot])

/-- LiveUpdate::begin, step for step from update.cpp: cli; the five region
checks; the ELF header search (offset 0, then 512); field extraction and
the `expected_total`/ELF_MINIMUM size check (the reported counts are the
`(uint32_t)` casts of the fprintf diagnostics); update_store_data (header,
callback, finalize, sanity check); Devices::flush_all; the soft-reset
snapshot (a no-op on solo5); only then the program-header sanity check
(`bin_data == nullptr || phys_base == nullptr || bin_len <= 64`); finally
the hotswap handoff. -/
def begin (env : Env) (loc : Nat) (b : Blob) (cb : Option (List Entry))
    (r0 : storage_header) : BeginResult :=
  match validate_region env loc with
  | some e => { outcome := .invalidRegion e, trace := [Ev.mask], region := r0 }
  | none =>
    match headerSearch b with
    | none => { outcome := .imageNotFound, trace := [Ev.mask, Ev.regionOk], region := r0 }
    | some s =>
      let d := locateDesc b s
      if b.len < d.expected ∨ d.expected < ELF_MINIMUM then
        { outcome := .imageSizeMismatch (d.expected % pow32) (b.len % pow32)
          trace := [Ev.mask, Ev.regionOk, Ev.headerFound], region := r0 }
      else
        match update_store_data env.checks r0 cb with
        | .error _ =>
          { outcome := .integrityCheckFailed, trace := [Ev.mask], region := r0 }
        | .ok (_n, r1) =>
          if (env.blobAddr + s + d.binOff) % pow64 = 0 ∨ d.physBase = 0 ∨
              d.binLen ≤ 64 then
            { outcome := .malformedSegment
              trace := storeTrace cb.isSome env.solo5, region := r1 }
          else
            { outcome := .handedOff s d
              trace := storeTrace cb.isSome env.solo5 ++ [Ev.segmentOk, Ev.handoff]
              region := r1 }

/-- LiveUpdate::restore_environment: the Resume Hook, whose only effect is
re-enabling interrupts (sti). -/
def restore_environment : List Ev := [Ev.unmask]

/-- The trace each outcome of begin corresponds to (the
integrityCheckFailed case never occurs; see begin_char). -/
def traceFor (o : Outcome) (cbSome : Bool) (solo5 : Bool) : List Ev :=
  match o with
  | .invalidRegion _ => [Ev.mask]
  | .imageNotFound => [Ev.mask, Ev.regionOk]
  | .imageSizeMismatch _ _ => [Ev.mask, Ev.regionOk, Ev.headerFound]
  | .integrityCheckFailed => []
  | .malformedSegment => storeTrace cbSome solo5
  | .handedOff _ _ => storeTrace cbSome solo5 ++ [Ev.segmentOk, Ev.handoff]

/-- The region contents each outcome of begin leaves: untouched for the
errors raised before update_store_data, the fresh finalized log after. -/
def regionFor (o : Outcome) (r0 : storage_header)
    (cb : Option (List Entry)) : storage_header :=
  match o with
  | .invalidRegion _ => r0
  | .imageNotFound => r0
  | .imageSizeMismatch _ _ => r0
  | _ => logOf cb

/-- Whether an outcome lies past the update_store_data call of begin. -/
def reachedStore : Outcome → Bool
  | .invalidRegion _ => false
  | .imageNotFound => false
  | .imageSizeMismatch _ _ => false
  | _ => true

/-- Concrete host bounds used by the evaluation theorems: kernel image at
[0x200000, 0x300000), heap at [0x300000, 0x400000), 16 MiB of physical
memory, blob at 0x500000, non-solo5 platform, sanity checks on. -/
def envM : Env :=
  { kernelStart := 0x200000, kernelEnd := 0x300000, heapBegin := 0x300000
    heapEnd := 0x400000, heapMax := 0x1000000, blobAddr := 0x500000
    solo5 := false, checks := true }

/-- A storage region address that passes all five region checks of envM. -/
def locM : Nat := 0x800000

/-- Arbitrary previous region contents (a stale generation). -/
def r0w : storage_header := { magic := 0, total := 5, entries := [], trailer := 9 }

/-- A concrete state-dump callback that appends one entry. -/
def cbM : Option (List Entry) := some [{ tag := 1, id := 7, payloadSize := 4 }]

/-- A 200-byte 32-bit ELF blob: magic at 0, EI_CLASS = 1, e_phoff = 52,
e_shoff = 164, e_shnum = e_shentsize = 0 (so expected_total = 164), and a
program header whose p_paddr is 0 (so the segment check fails). -/
def blobM : Blob :=
  { data := fun i =>
      [0x7F, 0x45, 0x4C, 0x46, 1, 0, 0, 0, 0, 0,
       0, 0, 0, 0, 0, 0, 0, 0, 0, 0,
       0, 0, 0, 0, 0, 0, 0, 0, 0x34, 0,
       0, 0, 0xA4, 0, 0, 0].getD i 0
    len := 200 }

/-- A 200-byte 32-bit ELF blob whose size expression wraps: e_shoff =
0xFFFFFFFF, e_shnum = 1, e_shentsize = 165, so the C expression
`e_shnum * e_shentsize + e_shoff` yields 164 (mod 2^32) while the
unbounded sum is 4294967460. -/
def blob4 : Blob :=
  { data := fun i =>
      [0x7F, 0x45, 0x4C, 0x46, 1, 0, 0, 0, 0, 0,
       0, 0, 0, 0, 0, 0, 0, 0, 0, 0,
       0, 0, 0, 0, 0, 0, 0, 0, 0x34, 0,
       0, 0, 0xFF, 0xFF, 0xFF, 0xFF, 0, 0, 0, 0,
       0, 0, 0, 0, 0, 0, 0xA5, 0, 1, 0].getD i 0
    len := 200 }

/-- A 200-byte 32-bit ELF blob with e_shoff = 100, so expected_total =
100 < ELF_MINIMUM and begin raises the size-mismatch error. -/
def blobW : Blob :=
  { data := fun i =>
      [0x7F, 0x45, 0x4C, 0x46, 1, 0, 0, 0, 0, 0,
       0, 0, 0, 0, 0, 0, 0, 0, 0, 0,
       0, 0, 0, 0, 0, 0, 0, 0, 0, 0,
       0, 0, 100, 0, 0, 0].getD i 0
    len := 200 }

/-- A 4-byte all-zero blob: no ELF magic anywhere, shorter than one
sector, so the retry dereferences offset 512 far past its end. -/
def blobOob : Blob := { data := fun _ => 0, len := 4 }

/-- A 200-byte 32-bit ELF blob whose e_phoff is 65536: the program-header
fields are dereferenced at offsets around 65540, far past the blob end. -/
def blobPh : Blob :=
  { data := fun i =>
      [0x7F, 0x45, 0x4C, 0x46, 1, 0, 0, 0, 0, 0,
       0, 0, 0, 0, 0, 0, 0, 0, 0, 0,
       0, 0, 0, 0, 0, 0, 0, 0, 0, 0,
       1, 0].getD i 0
    len := 200 }

/-- Exactly one sector of zero bytes, the bootloader stub of the claims. -/
def pre6 : List Nat := List.replicate 512 0

/-- A finalized-looking region whose trailer was deliberately corrupted. -/
def corruptSt : storage_header :=
  { magic := LIVEUPD_MAGIC, total := 0, entries := [], trailer := 0 }

theorem add_entry_magic (st : storage_header) (e : Entry) :
    (storage_header.add_entry st e).magic = st.magic := rfl

theorem runCallback_magic (cb : Option (List Entry)) (st : storage_header) :
    (runCallback cb st).magic = st.magic := by
  cases cb with
  | none => rfl
  | some es =>
    induction es generalizing st with
    | nil => rfl
    | cons e es ih => simpa [runCallback, List.foldl] using ih (storage_header.add_entry st e)

theorem validate_logOf (cb : Option (List Entry)) :
    (logOf cb).validate = true := by
  simp [logOf, storage_header.validate, storage_header.finalize, runCallback_magic,
    storage_header.create]

theorem stored_data_length_logOf (checks : Bool) (cb : Option (List Entry)) :
    stored_data_length checks (logOf cb) = .ok (logOf cb).total_bytes := by
  simp [stored_data_length, validate_logOf]

theorem update_store_eq (checks : Bool) (r0 : storage_header) (cb : Option (List Entry)) :
    update_store_data checks r0 cb = .ok ((logOf cb).total_bytes, logOf cb) := by
  have h := stored_data_length_logOf checks cb
  simp [update_store_data, logOf] at h ⊢
  rw [h]

/-- Characterization of every run of begin: the trace of side-effect steps
it performed is determined by its outcome as in traceFor, the integrity
error never occurs inside begin (a freshly finalized log always
validates), and the region it leaves is regionFor of the outcome. -/
theorem begin_char (env : Env) (loc : Nat) (b : Blob) (cb : Option (List Entry))
    (r0 : storage_header) :
    (begin env loc b cb r0).trace =
      traceFor (begin env loc b cb r0).outcome cb.isSome env.solo5 ∧
    (begin env loc b cb r0).outcome ≠ .integrityCheckFailed ∧
    (begin env loc b cb r0).region = regionFor (begin env loc b cb r0).outcome r0 cb := by
  unfold begin
  cases hv : validate_region env loc with
  | some e => simp [traceFor, regionFor]
  | none =>
    cases hh : headerSearch b with
    | none => simp [traceFor, regionFor]
    | some s =>
      rw [update_store_eq]
      dsimp only
      split_ifs <;> simp [traceFor, regionFor]

theorem traceFor_mask (o : Outcome) (x y : Bool) (h : o ≠ Outcome.integrityCheckFailed) :
    (traceFor o x y).head? = some Ev.mask ∧ Ev.unmask ∉ traceFor o x y := by
  cases o <;> cases x <;> cases y <;> simp_all [traceFor, storeTrace]

theorem storeTrace_mem (x y : Bool) :
    Ev.storeHeader ∈ storeTrace x y ∧ Ev.logFinalized ∈ storeTrace x y ∧
    Ev.devFlush ∈ storeTrace x y := by
  cases x <;> cases y <;> decide

theorem traceFor_storeHeader (o : Outcome) (x y : Bool)
    (h : o ≠ Outcome.integrityCheckFailed) :
    (Ev.storeHeader ∈ traceFor o x y ↔ reachedStore o = true) := by
  cases o <;> cases x <;> cases y <;> simp_all [traceFor, storeTrace, reachedStore]

theorem byte_prependBlob (p : List Nat) (b : Blob) (hp : p.length = 512) (k : Nat) :
    byte (prependBlob p b) (512 + k) = byte b k := by
  have h1 : ¬ (512 + k < p.length) := by omega
  simp only [byte, prependBlob]
  rw [if_neg h1, hp, Nat.add_sub_cancel_left]

theorem readLE_prependBlob (p : List Nat) (b : Blob) (hp : p.length = 512) :
    ∀ (n off : Nat), readLE (prependBlob p b) (512 + off) n = readLE b off n := by
  intro n
  induction n with
  | zero => intro off; rfl
  | succ n ih =>
    intro off
    simp only [readLE, byte_prependBlob p b hp off]
    rw [Nat.add_assoc, ih (off + 1)]

theorem locateDesc_prependBlob (p : List Nat) (b : Blob) (hp : p.length = 512) :
    locateDesc (prependBlob p b) 512 = locateDesc b 0 := by
  simp only [locateDesc, byte_prependBlob p b hp, readLE_prependBlob p b hp, Nat.zero_add]

theorem segBytes_prependBlob (p : List Nat) (b : Blob) (hp : p.length = 512) :
    segBytes (prependBlob p b) 512 = segBytes b 0 := by
  simp only [segBytes, locateDesc_prependBlob p b hp, byte_prependBlob p b hp, Nat.zero_add]

theorem validate_header_prependBlob (p : List Nat) (b : Blob) (hp : p.length = 512) :
    validate_header (prependBlob p b) 512 = validate_header b 0 := by
  have hb0 : byte (prependBlob p b) 512 = byte b 0 := byte_prependBlob p b hp 0
  unfold validate_header
  rw [hb0, byte_prependBlob p b hp 1, byte_prependBlob p b hp 2, byte_prependBlob p b hp 3]

/-- Claim C1 (code evaluated at failing inputs): contrary to the spec's
requirement, the Binary Locator never bounds-checks the offsets it takes
from the blob before dereferencing them.  On the 4-byte all-zero blob the
512-byte retry dereferences offset 512, far past the end (the run then
ends in ImageNotFound); on a 200-byte 32-bit ELF whose e_phoff is 65536
the program-header fields are dereferenced around offset 65540, far past
the end. -/
theorem C1_unchecked_reads :
    blobOob.len = 4 ∧ 512 ∈ locateReads blobOob ∧
    (begin envM locM blobOob none r0w).outcome = Outcome.imageNotFound ∧
    blobPh.len = 200 ∧ 65540 ∈ locateReads blobPh := by decide

/-- Claim C2 (amended): in every run of begin the steps occur in the order
mask interrupts, validate region, find header, size check, write storage
header, run the optional state-dump callback, finalize the log, flush
devices, capture the snapshot (off solo5), segment sanity check, handoff —
each outcome's trace is the corresponding prefix, per traceFor, and the
integrity error never escapes begin.  Amendment forced by the
counterexample: the MalformedSegment check runs after the log is stored
and finalized, devices are flushed and the snapshot is captured, not
before, so on that error those effects have already happened. -/
theorem C2_step_order (env : Env) (loc : Nat) (b : Blob) (cb : Option (List Entry))
    (r0 : storage_header) :
    (begin env loc b cb r0).trace =
      traceFor (begin env loc b cb r0).outcome cb.isSome env.solo5 ∧
    (begin env loc b cb r0).outcome ≠ Outcome.integrityCheckFailed :=
  ⟨(begin_char env loc b cb r0).1, (begin_char env loc b cb r0).2.1⟩

/-- Claim C2, counterexample to the claim as stated: a concrete run of
begin that raises MalformedSegment although the state-dump callback has
run and the devices were flushed and the snapshot captured. -/
theorem C2_cex_callback_before_check :
    (begin envM locM blobM cbM r0w).outcome = Outcome.malformedSegment ∧
    Ev.callbackRun ∈ (begin envM locM blobM cbM r0w).trace ∧
    Ev.devFlush ∈ (begin envM locM blobM cbM r0w).trace ∧
    Ev.snapshot ∈ (begin envM locM blobM cbM r0w).trace := by decide

/-- Claim C2, witness: the step-order theorem evaluated on a concrete run. -/
theorem C2_step_order_witness :
    (begin envM locM blobM cbM r0w).trace =
      traceFor (begin envM locM blobM cbM r0w).outcome cbM.isSome envM.solo5 ∧
    (begin envM locM blobM cbM r0w).outcome ≠ Outcome.integrityCheckFailed :=
  C2_step_order envM locM blobM cbM r0w

/-- Claim C3: region validation performs exactly the five checks in source
order — address below 0x200, inside [kernel_start, kernel_end), inside
[heap_begin, heap_end), at or beyond the top of physical memory, within
the last 64 KiB below the top — each with its own distinct failure
reason, an address passes iff none of the five conditions holds, and
validation is a pure function (it writes nothing). -/
theorem C3_region_checks (env : Env) (addr : Nat) :
    (validate_region env addr = none ↔
      ¬ addr < 0x200 ∧ ¬ (env.kernelStart ≤ addr ∧ addr < env.kernelEnd) ∧
      ¬ (env.heapBegin ≤ addr ∧ addr < env.heapEnd) ∧ ¬ env.heapMax ≤ addr ∧
      ¬ env.heapMax - 0x10000 ≤ addr) ∧
    (validate_region env addr = some RegionError.nullArea ↔ addr < 0x200) ∧
    (validate_region env addr = some RegionError.inKernel ↔
      ¬ addr < 0x200 ∧ env.kernelStart ≤ addr ∧ addr < env.kernelEnd) ∧
    (validate_region env addr = some RegionError.inHeap ↔
      ¬ addr < 0x200 ∧ ¬ (env.kernelStart ≤ addr ∧ addr < env.kernelEnd) ∧
      env.heapBegin ≤ addr ∧ addr < env.heapEnd) ∧
    (validate_region env addr = some RegionError.beyondRam ↔
      ¬ addr < 0x200 ∧ ¬ (env.kernelStart ≤ addr ∧ addr < env.kernelEnd) ∧
      ¬ (env.heapBegin ≤ addr ∧ addr < env.heapEnd) ∧ env.heapMax ≤ addr) ∧
    (validate_region env addr = some RegionError.lowMargin ↔
      ¬ addr < 0x200 ∧ ¬ (env.kernelStart ≤ addr ∧ addr < env.kernelEnd) ∧
      ¬ (env.heapBegin ≤ addr ∧ addr < env.heapEnd) ∧ ¬ env.heapMax ≤ addr ∧
      env.heapMax - 0x10000 ≤ addr) := by
  unfold validate_region
  split_ifs <;> simp_all

/-- Claim C3, witness: the characterization evaluated at a concrete
environment and address. -/
theorem C3_region_checks_witness :
    (validate_region envM locM = none ↔
      ¬ locM < 0x200 ∧ ¬ (envM.kernelStart ≤ locM ∧ locM < envM.kernelEnd) ∧
      ¬ (envM.heapBegin ≤ locM ∧ locM < envM.heapEnd) ∧ ¬ envM.heapMax ≤ locM ∧
      ¬ envM.heapMax - 0x10000 ≤ locM) ∧
    (validate_region envM locM = some RegionError.nullArea ↔ locM < 0x200) ∧
    (validate_region envM locM = some RegionError.inKernel ↔
      ¬ locM < 0x200 ∧ envM.kernelStart ≤ locM ∧ locM < envM.kernelEnd) ∧
    (validate_region envM locM = some RegionError.inHeap ↔
      ¬ locM < 0x200 ∧ ¬ (envM.kernelStart ≤ locM ∧ locM < envM.kernelEnd) ∧
      envM.heapBegin ≤ locM ∧ locM < envM.heapEnd) ∧
    (validate_region envM locM = some RegionError.beyondRam ↔
      ¬ locM < 0x200 ∧ ¬ (envM.kernelStart ≤ locM ∧ locM < envM.kernelEnd) ∧
      ¬ (envM.heapBegin ≤ locM ∧ locM < envM.heapEnd) ∧ envM.heapMax ≤ locM) ∧
    (validate_region envM locM = some RegionError.lowMargin ↔
      ¬ locM < 0x200 ∧ ¬ (envM.kernelStart ≤ locM ∧ locM < envM.kernelEnd) ∧
      ¬ (envM.heapBegin ≤ locM ∧ locM < envM.heapEnd) ∧ ¬ envM.heapMax ≤ locM ∧
      envM.heapMax - 0x10000 ≤ locM) :=
  C3_region_checks envM locM

/-- Claim C4 (amended): once the region is valid and a header was found at
offset s, begin raises ImageSizeMismatch iff blob.len < expected_total or
expected_total < 164, where expected_total is the source's machine-level
value of e_shoff + e_shnum * e_shentsize (wrapping mod 2^32 in the 32-bit
class, mod 2^64 in the 64-bit class); when raised, the error carries
expected_total mod 2^32 and blob.len mod 2^32 (the fprintf uint32_t
casts).  Amendment forced by the counterexample: the spec's unbounded
expression and the wrapped value the code computes and reports differ
once the sum exceeds the machine width. -/
theorem C4_size_check (env : Env) (loc : Nat) (b : Blob) (cb : Option (List Entry))
    (r0 : storage_header) (s : Nat)
    (hv : validate_region env loc = none) (hs : headerSearch b = some s) :
    (isSizeMismatch (begin env loc b cb r0).outcome = true ↔
      b.len < (locateDesc b s).expected ∨ (locateDesc b s).expected < ELF_MINIMUM) ∧
    ((b.len < (locateDesc b s).expected ∨ (locateDesc b s).expected < ELF_MINIMUM) →
      (begin env loc b cb r0).outcome =
        Outcome.imageSizeMismatch ((locateDesc b s).expected % pow32) (b.len % pow32)) := by
  unfold begin
  rw [hv, hs, update_store_eq]
  dsimp only
  split_ifs with h1 h2 <;> simp_all [isSizeMismatch]

/-- Claim C4, witness: a concrete blob whose expected_total is 100 < 164,
on which begin reports the size mismatch with the computed counts. -/
theorem C4_size_check_witness :
    validate_region envM locM = none ∧ headerSearch blobW = some 0 ∧
    (blobW.len < (locateDesc blobW 0).expected ∨
      (locateDesc blobW 0).expected < ELF_MINIMUM) ∧
    (begin envM locM blobW none r0w).outcome =
      Outcome.imageSizeMismatch ((locateDesc blobW 0).expected % pow32) (blobW.len % pow32) :=
  ⟨by decide, by decide, by decide,
    (C4_size_check envM locM blobW none r0w 0 (by decide) (by decide)).2 (by decide)⟩

/-- Claim C4, counterexample to the claim as stated: blob4's header gives
the unbounded value e_shoff + e_shnum * e_shentsize = 4294967460, which
exceeds the blob length 200, so the claim demands ImageSizeMismatch; the
code computes the sum in 32-bit arithmetic, getting 164, and the run
passes the size check and fails later with MalformedSegment instead. -/
theorem C4_cex_wrapped_size :
    spec_expected_total blob4 0 = 4294967460 ∧
    blob4.len = 200 ∧ blob4.len < spec_expected_total blob4 0 ∧
    headerSearch blob4 = some 0 ∧ validate_region envM locM = none ∧
    (begin envM locM blob4 none r0w).outcome = Outcome.malformedSegment := by decide

/-- Claim C5: the header search tries exactly offset 0 and, on a magic
mismatch there, offset 512, in that order; it raises ImageNotFound iff the
region was valid and the 4-byte ELF magic matches at neither offset; no
other offsets are consulted (the characterization below determines the
search result from the two validate_header tests alone). -/
theorem C5_header_search (env : Env) (loc : Nat) (b : Blob)
    (cb : Option (List Entry)) (r0 : storage_header) :
    (headerSearch b = some 0 ↔ validate_header b 0 = true) ∧
    (headerSearch b = some 512 ↔
      validate_header b 0 = false ∧ validate_header b 512 = true) ∧
    (headerSearch b = none ↔
      validate_header b 0 = false ∧ validate_header b 512 = false) ∧
    ((begin env loc b cb r0).outcome = Outcome.imageNotFound ↔
      validate_region env loc = none ∧ headerSearch b = none) := by
  refine ⟨?_, ?_, ?_, ?_⟩
  · unfold headerSearch SECT_SIZE; split_ifs <;> simp_all
  · unfold headerSearch SECT_SIZE; split_ifs <;> simp_all
  · unfold headerSearch SECT_SIZE; split_ifs <;> simp_all
  · unfold begin
    cases hv : validate_region env loc with
    | some e => simp [hv]
    | none =>
      cases hh : headerSearch b with
      | none => simp [hv, hh]
      | some s =>
        rw [update_store_eq]
        dsimp only
        split_ifs <;> simp [hv, hh]

/-- Claim C5, witness: the search characterization evaluated on a
concrete blob with the magic at offset 0. -/
theorem C5_header_search_witness :
    (headerSearch blobM = some 0 ↔ validate_header blobM 0 = true) ∧
    (headerSearch blobM = some 512 ↔
      validate_header blobM 0 = false ∧ validate_header blobM 512 = true) ∧
    (headerSearch blobM = none ↔
      validate_header blobM 0 = false ∧ validate_header blobM 512 = false) ∧
    ((begin envM locM blobM none r0w).outcome = Outcome.imageNotFound ↔
      validate_region envM locM = none ∧ headerSearch blobM = none) :=
  C5_header_search envM locM blobM none r0w

/-- Claim C6: for a blob with a valid ELF header at byte 0 and the blob
obtained by prepending exactly 512 bytes that do not begin with the ELF
magic, header location succeeds on both (at offsets 0 and 512), and the
extracted entry point, expected_total, segment offset/length, physical
base, and segment data bytes coincide. -/
theorem C6_shift_invariance (p : List Nat) (b : Blob) (hp : p.length = 512)
    (h0 : validate_header b 0 = true)
    (hq : validate_header (prependBlob p b) 0 = false) :
    headerSearch b = some 0 ∧
    headerSearch (prependBlob p b) = some 512 ∧
    locateDesc (prependBlob p b) 512 = locateDesc b 0 ∧
    segBytes (prependBlob p b) 512 = segBytes b 0 := by
  have h512 : validate_header (prependBlob p b) 512 = true := by
    rw [validate_header_prependBlob p b hp, h0]
  refine ⟨?_, ?_, locateDesc_prependBlob p b hp, segBytes_prependBlob p b hp⟩
  · simp [headerSearch, h0]
  · simp [headerSearch, SECT_SIZE, hq, h512]

set_option maxRecDepth 10000 in
/-- Claim C6, witness: the shift invariance evaluated on a concrete ELF
blob with one sector of zeros in front. -/
theorem C6_shift_invariance_witness :
    pre6.length = 512 ∧ validate_header blobM 0 = true ∧
    validate_header (prependBlob pre6 blobM) 0 = false ∧
    headerSearch blobM = some 0 ∧
    headerSearch (prependBlob pre6 blobM) = some 512 ∧
    locateDesc (prependBlob pre6 blobM) 512 = locateDesc blobM 0 ∧
    segBytes (prependBlob pre6 blobM) 512 = segBytes blobM 0 := by
  have h := C6_shift_invariance pre6 blobM (by decide) (by decide) (by decide)
  exact ⟨by decide, by decide, by decide, h.1, h.2.1, h.2.2.1, h.2.2.2⟩

/-- Claim C7: with the sanity-check toggle off, stored_data_length never
validates and returns total_bytes unconditionally (so never raises
IntegrityCheckFailed, even on a corrupted trailer); with the toggle on, a
corrupted trailer raises IntegrityCheckFailed; and the global toggle's
initializer is true (enabled by default). -/
theorem C7_sanity_toggle :
    LIVEUPDATE_PERFORM_SANITY_CHECKS = true ∧
    (∀ st : storage_header, stored_data_length false st = .ok st.total_bytes) ∧
    (∀ st : storage_header, st.trailer ≠ TRAILER_MAGIC →
      stored_data_length true st = .error .integrityCheckFailed) := by
  refine ⟨rfl, fun st => rfl, fun st h => ?_⟩
  have hv : st.validate = false := by
    simp [storage_header.validate]
    intro _
    exact h
  simp [stored_data_length, hv]

/-- Claim C7, witness: both toggle behaviours on a concrete region whose
trailer is corrupted. -/
theorem C7_sanity_toggle_witness :
    corruptSt.trailer ≠ TRAILER_MAGIC ∧
    stored_data_length true corruptSt = Except.error LiuErr.integrityCheckFailed :=
  ⟨by decide, C7_sanity_toggle.2.2 corruptSt (by decide)⟩

/-- Claim C8: begin's very first step is masking interrupts (its trace
always begins with the mask event), begin never re-enables interrupts on
any path (no unmask event ever appears in its trace, so every failure
returns with interrupts masked), and the only operation that re-enables
them is the Resume Hook restore_environment. -/
theorem C8_interrupt_mask (env : Env) (loc : Nat) (b : Blob) (cb : Option (List Entry))
    (r0 : storage_header) :
    (begin env loc b cb r0).trace.head? = some Ev.mask ∧
    Ev.unmask ∉ (begin env loc b cb r0).trace ∧
    restore_environment = [Ev.unmask] := by
  obtain ⟨ht, hni, -⟩ := begin_char env loc b cb r0
  rw [ht]
  obtain ⟨h1, h2⟩ := traceFor_mask (begin env loc b cb r0).outcome cb.isSome env.solo5 hni
  exact ⟨h1, h2, rfl⟩

/-- Claim C8, witness: the interrupt-mask property on a concrete run. -/
theorem C8_interrupt_mask_witness :
    (begin envM locM blobM cbM r0w).trace.head? = some Ev.mask ∧
    Ev.unmask ∉ (begin envM locM blobM cbM r0w).trace ∧
    restore_environment = [Ev.unmask] :=
  C8_interrupt_mask envM locM blobM cbM r0w

/-- Claim C9: update_store_data (the storage step shared by begin and
store) writes a fresh header regardless of the region's previous contents
(its result does not depend on them), finalizes the log (trailer written)
even when no callback is supplied, the resulting log — including the empty
one — passes validate, and store returns exactly the byte count that
stored_data_length reports for the finalized log. -/
theorem C9_store_fresh (checks : Bool) (r0 r0' : storage_header)
    (cb : Option (List Entry)) :
    update_store_data checks r0 cb = update_store_data checks r0' cb ∧
    update_store_data checks r0 cb = .ok ((logOf cb).total_bytes, logOf cb) ∧
    (logOf cb).trailer = TRAILER_MAGIC ∧
    storage_header.validate (logOf cb) = true ∧
    storage_header.validate (logOf none) = true ∧
    store checks r0 cb = .ok ((logOf cb).total_bytes, logOf cb) ∧
    stored_data_length checks (logOf cb) = .ok (logOf cb).total_bytes :=
  ⟨rfl, update_store_eq checks r0 cb, rfl, validate_logOf cb, validate_logOf none,
    update_store_eq checks r0 cb, stored_data_length_logOf checks cb⟩

/-- Claim C9, witness: the store properties on concrete previous region
contents and a concrete callback. -/
theorem C9_store_fresh_witness :
    update_store_data true r0w cbM = update_store_data true storage_header.create cbM ∧
    update_store_data true r0w cbM = .ok ((logOf cbM).total_bytes, logOf cbM) ∧
    (logOf cbM).trailer = TRAILER_MAGIC ∧
    storage_header.validate (logOf cbM) = true ∧
    storage_header.validate (logOf none) = true ∧
    store true r0w cbM = .ok ((logOf cbM).total_bytes, logOf cbM) ∧
    stored_data_length true (logOf cbM) = .ok (logOf cbM).total_bytes :=
  C9_store_fresh true r0w storage_header.create cbM

/-- Claim C10: begin is not atomic with respect to the storage region —
the region it leaves equals regionFor of the outcome: untouched (equal to
its previous contents) on InvalidRegion, ImageNotFound and
ImageSizeMismatch, but a freshly created, callback-filled, finalized log
once the storage step ran; the storage-header write appears in the trace
exactly when the run got past the size check; and on MalformedSegment the
log was written and finalized and the devices flushed, destroying the
region's previous contents despite the failure. -/
theorem C10_partial_write (env : Env) (loc : Nat) (b : Blob) (cb : Option (List Entry))
    (r0 : storage_header) :
    (begin env loc b cb r0).region = regionFor (begin env loc b cb r0).outcome r0 cb ∧
    (Ev.storeHeader ∈ (begin env loc b cb r0).trace ↔
      reachedStore (begin env loc b cb r0).outcome = true) ∧
    ((begin env loc b cb r0).outcome = Outcome.malformedSegment →
      Ev.storeHeader ∈ (begin env loc b cb r0).trace ∧
      Ev.logFinalized ∈ (begin env loc b cb r0).trace ∧
      Ev.devFlush ∈ (begin env loc b cb r0).trace ∧
      (begin env loc b cb r0).region = logOf cb) := by
  obtain ⟨ht, hni, hr⟩ := begin_char env loc b cb r0
  refine ⟨hr, ?_, ?_⟩
  · rw [ht]; exact traceFor_storeHeader _ _ _ hni
  · intro ho
    rw [ht, ho, hr, ho]
    exact ⟨(storeTrace_mem _ _).1, (storeTrace_mem _ _).2.1, (storeTrace_mem _ _).2.2, rfl⟩

/-- Claim C10, witness: a concrete MalformedSegment run in which the log
was stored, finalized and the devices flushed. -/
theorem C10_partial_write_witness :
    (begin envM locM blobM cbM r0w).outcome = Outcome.malformedSegment ∧
    Ev.storeHeader ∈ (begin envM locM blobM cbM r0w).trace ∧
    Ev.logFinalized ∈ (begin envM locM blobM cbM r0w).trace ∧
    Ev.devFlush ∈ (begin envM locM blobM cbM r0w).trace ∧
    (begin envM locM blobM cbM r0w).region = logOf cbM := by
  have h := (C10_partial_write envM locM blobM cbM r0w).2.2 (by decide)
  exact ⟨by decide, h.1, h.2.1, h.2.2.1, h.2.2.2⟩

end Liu
